import Mathlib

/-!
Shallow embedding of the overlay subsystem of `rviz_attitude_plugin`
(`src/overlay_system.cpp`): geometry placement with clamping and anchor
resolution, the scoped pixel-buffer lock, the overlay panel resource and
the top-level overlay manager.  C++ `int` values are modelled as `Int`,
`unsigned int` sizes as `Nat`; side effects on GPU resources are modelled
as explicit event lists.
-/

namespace RvizAttitudePlugin

/-- Model of C++ `std::clamp(v, lo, hi)` on `Int` (callers guarantee `lo ≤ hi`). -/
def cppClamp (v lo hi : Int) : Int :=
  if v < lo then lo else if hi < v then hi else v

/-- Qt `QSize` as used by the geometry code: viewport size in pixels. -/
structure QSize where
  width : Int
  height : Int
deriving DecidableEq, Repr

namespace OverlayGeometryManager

/-- The four anchor corners of `OverlayGeometryManager::Anchor`. -/
inductive Anchor
  | TopLeft
  | TopRight
  | BottomLeft
  | BottomRight
deriving DecidableEq, Repr

/-- Embedding of `OverlayGeometryManager::Geometry`: requested size, pre-clamp offsets
and anchor corner. -/
structure Geometry where
  width : Int
  height : Int
  offset_x : Int
  offset_y : Int
  anchor : Anchor
deriving DecidableEq, Repr

/-- Embedding of `OverlayGeometryManager::calculateClampedOffsets`. -/
def calculateClampedOffsets (g : Geometry) (panel_size : QSize) : Int × Int :=
  let max_x_offset := max 0 (panel_size.width - g.width)
  let max_y_offset := max 0 (panel_size.height - g.height)
  (cppClamp g.offset_x 0 max_x_offset, cppClamp g.offset_y 0 max_y_offset)

/-- Embedding of `OverlayGeometryManager::calculateAbsolutePosition`: clamp first, then
resolve the anchor corner. -/
def calculateAbsolutePosition (g : Geometry) (panel_size : QSize) : Int × Int :=
  let clamped := calculateClampedOffsets g panel_size
  match g.anchor with
  | Anchor.TopRight => (panel_size.width - g.width - clamped.1, clamped.2)
  | Anchor.TopLeft => (clamped.1, clamped.2)
  | Anchor.BottomRight =>
      (panel_size.width - g.width - clamped.1, panel_size.height - g.height - clamped.2)
  | Anchor.BottomLeft => (clamped.1, panel_size.height - g.height - clamped.2)

/-- Embedding of `OverlayGeometryManager::fitsWithinPanel`. -/
def fitsWithinPanel (g : Geometry) (panel_size : QSize) : Bool :=
  g.width ≤ panel_size.width && g.height ≤ panel_size.height

end OverlayGeometryManager

open OverlayGeometryManager

/-- An `Ogre::HardwarePixelBufferSharedPtr` that is non-null; `ptr` models
the data pointer of the buffer's current lock (`PixelBox::data`), which may
itself be null. -/
structure PixelBufferHandle where
  id : Nat
  ptr : Option Nat
deriving DecidableEq, Repr

/-- Observable actions on the hardware pixel buffer. -/
inductive BufEvent
  | lock
  | unlock
  | memWrite
deriving DecidableEq, BEq, Repr

/-- Embedding of `ScopedPixelBuffer`: holds an `Ogre::HardwarePixelBufferSharedPtr`,
which is null (`none`) when empty or moved-from. -/
structure ScopedPixelBuffer where
  buffer : Option PixelBufferHandle
deriving DecidableEq, Repr

namespace ScopedPixelBuffer

/-- The constructor `ScopedPixelBuffer(buffer)`: stores the shared pointer
and locks the buffer exactly when the pointer is non-null. -/
def construct (b : Option PixelBufferHandle) : ScopedPixelBuffer × List BufEvent :=
  (⟨b⟩, if b.isSome then [BufEvent.lock] else [])

/-- The move constructor: `buffer_(std::move(other.buffer_))` leaves the
moved-from shared pointer null.  Returns (moved-to, moved-from). -/
def moveConstruct (other : ScopedPixelBuffer) : ScopedPixelBuffer × ScopedPixelBuffer :=
  (⟨other.buffer⟩, ⟨none⟩)

/-- The move assignment operator (for `this ≠ &other`): unlocks the
target's current buffer if any, then takes `other`'s pointer, leaving
`other` null.  Returns ((new target, moved-from other), events). -/
def moveAssign (target other : ScopedPixelBuffer) :
    (ScopedPixelBuffer × ScopedPixelBuffer) × List BufEvent :=
  ((⟨other.buffer⟩, ⟨none⟩),
    if target.buffer.isSome then [BufEvent.unlock] else [])

/-- The destructor: unlocks exactly when the stored pointer is non-null. -/
def destruct (s : ScopedPixelBuffer) : List BufEvent :=
  if s.buffer.isSome then [BufEvent.unlock] else []

/-- Embedding of `ScopedPixelBuffer::valid`. -/
def valid (s : ScopedPixelBuffer) : Bool :=
  s.buffer.isSome

end ScopedPixelBuffer

/-- A `QImage` over the locked memory (a null `QImage` is `none`). -/
structure QImageModel where
  dataPtr : Nat
  width : Nat
  height : Nat
deriving DecidableEq, Repr

/-- Embedding of `ScopedPixelBuffer::getQImage`: null shared pointer or null data
pointer yields a null image with no memory access; otherwise the pixel
memory is zero-filled (`memWrite`) and wrapped as an ARGB32 image. -/
def ScopedPixelBuffer.getQImage (s : ScopedPixelBuffer) (width height : Nat) :
    Option QImageModel × List BufEvent :=
  match s.buffer with
  | none => (none, [])
  | some b =>
    match b.ptr with
    | none => (none, [])
    | some p => (some ⟨p, width, height⟩, [BufEvent.memWrite])

/-- A chain of `n` successive move constructions starting from `s`:
returns the final (moved-to) instance and the list of moved-from husks. -/
def moveChain : ScopedPixelBuffer → Nat → ScopedPixelBuffer × List ScopedPixelBuffer
  | s, 0 => (s, [])
  | s, n + 1 =>
    let m := ScopedPixelBuffer.moveConstruct s
    let rest := moveChain m.1 n
    (rest.1, m.2 :: rest.2)

/-- Observable actions on the texture manager performed by
`OverlayPanel::updateTextureSize`. -/
inductive TexEvent
  | destroyTexture
  | createTexture (width height : Nat)
deriving DecidableEq, BEq, Repr

/-- State of an `OverlayPanel`: the three GPU handles created together at
construction (modelled as non-null flags), the texture with its stored
dimensions, the overlay's visibility, and the panel's position and
dimensions. -/
structure OverlayPanelState where
  name_ : String
  overlay_ : Bool
  panel_ : Bool
  material_ : Bool
  visibleFlag : Bool
  texture_ : Option (Nat × Nat)
  panelPos : Option (Int × Int)
  panelDims : Option (Nat × Nat)
deriving DecidableEq, Repr

namespace OverlayPanel

/-- The constructor `OverlayPanel(name)`: if the Ogre overlay manager is
unavailable, `overlay_` and `panel_` are left null and construction stops;
otherwise overlay, panel and material are created together and the overlay
is hidden (`overlay_->hide()`). -/
def construct (name : String) (overlayMgrAvailable : Bool) : OverlayPanelState :=
  if overlayMgrAvailable then
    { name_ := name, overlay_ := true, panel_ := true, material_ := true,
      visibleFlag := false, texture_ := none, panelPos := none, panelDims := none }
  else
    { name_ := name, overlay_ := false, panel_ := false, material_ := false,
      visibleFlag := false, texture_ := none, panelPos := none, panelDims := none }

/-- Embedding of `OverlayPanel::show` (guarded on `overlay_`). -/
def show' (s : OverlayPanelState) : OverlayPanelState :=
  if s.overlay_ then { s with visibleFlag := true } else s

/-- Embedding of `OverlayPanel::hide` (guarded on `overlay_`). -/
def hide (s : OverlayPanelState) : OverlayPanelState :=
  if s.overlay_ then { s with visibleFlag := false } else s

/-- Embedding of `OverlayPanel::isVisible`: `overlay_ && overlay_->isVisible()`. -/
def isVisible (s : OverlayPanelState) : Bool :=
  s.overlay_ && s.visibleFlag

/-- Embedding of `OverlayPanel::setPosition` (guarded on `panel_`). -/
def setPosition (left top : Int) (s : OverlayPanelState) : OverlayPanelState :=
  if s.panel_ then { s with panelPos := some (left, top) } else s

/-- Embedding of `OverlayPanel::setDimensions` (guarded on `panel_`). -/
def setDimensions (width height : Nat) (s : OverlayPanelState) : OverlayPanelState :=
  if s.panel_ then { s with panelDims := some (width, height) } else s

/-- Embedding of `OverlayPanel::updateTextureSize`: no-op without a panel; dimensions of
0 are replaced by 1; a texture is (re)created only when absent or when its
stored dimensions differ from the (floored) request, destroying the old
texture first. -/
def updateTextureSize (width height : Nat) (s : OverlayPanelState) :
    OverlayPanelState × List TexEvent :=
  if s.panel_ = false then (s, [])
  else
    let w := if width = 0 then 1 else width
    let h := if height = 0 then 1 else height
    match s.texture_ with
    | none =>
      ({ s with texture_ := some (w, h) }, [TexEvent.createTexture w h])
    | some (tw, th) =>
      if tw = w ∧ th = h then (s, [])
      else
        ({ s with texture_ := some (w, h) },
          [TexEvent.destroyTexture, TexEvent.createTexture w h])

/-- Embedding of `OverlayPanel::getPixelBuffer`: an invalid `ScopedPixelBuffer` when no
texture exists, otherwise a lock over the texture's hardware buffer
(`texBuffer` supplies the buffer the external texture would return). -/
def getPixelBuffer (s : OverlayPanelState) (texBuffer : Option PixelBufferHandle) :
    ScopedPixelBuffer × List BufEvent :=
  match s.texture_ with
  | none => ScopedPixelBuffer.construct none
  | some _ => ScopedPixelBuffer.construct texBuffer

/-- Embedding of `OverlayPanel::textureWidth`: 0 when no texture exists. -/
def textureWidth (s : OverlayPanelState) : Nat :=
  match s.texture_ with
  | some (w, _) => w
  | none => 0

/-- Embedding of `OverlayPanel::textureHeight`: 0 when no texture exists. -/
def textureHeight (s : OverlayPanelState) : Nat :=
  match s.texture_ with
  | some (_, h) => h
  | none => 0

end OverlayPanel

/-- Applies a sequence of `updateTextureSize` requests, concatenating the
texture events. -/
def applyResizes (s : OverlayPanelState) :
    List (Nat × Nat) → OverlayPanelState × List TexEvent
  | [] => (s, [])
  | (w, h) :: rest =>
    let r1 := OverlayPanel.updateTextureSize w h s
    let r2 := applyResizes r1.1 rest
    (r2.1, r1.2 ++ r2.2)

/-- Number of `createTexture` events in a texture event list. -/
def texCreates (evs : List TexEvent) : Nat :=
  evs.countP fun e =>
    match e with
    | TexEvent.createTexture _ _ => true
    | _ => false

/-- Number of `destroyTexture` events in a texture event list. -/
def texDestroys (evs : List TexEvent) : Nat :=
  evs.countP fun e =>
    match e with
    | TexEvent.destroyTexture => true
    | _ => false

/-- Whether some request in the list has a non-zero size. -/
def nonZeroRequested (reqs : List (Nat × Nat)) : Bool :=
  reqs.any fun r => r.1 != 0 || r.2 != 0

/-- State of the top-level `OverlayManager`: the optional owned
`OverlayPanel` and the optional bound render panel with its pixel size. -/
structure OverlayManagerState where
  overlay_panel : Option OverlayPanelState
  render_panel : Option QSize
deriving DecidableEq, Repr

/-- Observable actions of a `render` call. -/
inductive RenderEvent
  | tex (e : TexEvent)
  | buf (e : BufEvent)
  | widgetResize (width height : Nat)
  | imageFill
  | paint
deriving DecidableEq, BEq, Repr

namespace OverlayManager

/-- Embedding of `OverlayManager::setGeometry`: no-op without panel or render panel;
otherwise clamps the offsets against the render panel size, resolves the
anchor, resizes texture and panel and positions the panel. -/
def setGeometry (width height offset_x offset_y : Int)
    (anchor : Anchor) (s : OverlayManagerState) :
    OverlayManagerState × List TexEvent :=
  match s.overlay_panel, s.render_panel with
  | some p, some panel_size =>
    let max_x_offset := max 0 (panel_size.width - width)
    let max_y_offset := max 0 (panel_size.height - height)
    let ox := cppClamp offset_x 0 max_x_offset
    let oy := cppClamp offset_y 0 max_y_offset
    let pos :=
      match anchor with
      | Anchor.TopRight => (panel_size.width - width - ox, oy)
      | Anchor.TopLeft => (ox, oy)
      | Anchor.BottomRight =>
          (panel_size.width - width - ox, panel_size.height - height - oy)
      | Anchor.BottomLeft => (ox, panel_size.height - height - oy)
    let r := OverlayPanel.updateTextureSize width.toNat height.toNat p
    let p2 := OverlayPanel.setDimensions width.toNat height.toNat r.1
    let p3 := OverlayPanel.setPosition pos.1 pos.2 p2
    ({ s with overlay_panel := some p3 }, r.2)
  | _, _ => (s, [])

/-- Embedding of `OverlayManager::setVisible`: forwards to show/hide when a panel
exists. -/
def setVisible (visible : Bool) (s : OverlayManagerState) : OverlayManagerState :=
  match s.overlay_panel with
  | none => s
  | some p =>
    { s with overlay_panel := some (if visible then OverlayPanel.show' p else OverlayPanel.hide p) }

/-- Embedding of `OverlayManager::render`: no-op without a panel or when the current
texture width or height is 0.  Otherwise re-asserts texture size and panel
dimensions, resizes the widget, acquires the pixel-buffer lock (`texBuffer`
supplies the hardware buffer the texture would return), and paints through
a `QImage` over the locked memory; the lock is released on scope exit. -/
def render (texBuffer : Option PixelBufferHandle) (s : OverlayManagerState) :
    OverlayManagerState × List RenderEvent :=
  match s.overlay_panel with
  | none => (s, [])
  | some p =>
    let width := OverlayPanel.textureWidth p
    let height := OverlayPanel.textureHeight p
    if width = 0 ∨ height = 0 then (s, [])
    else
      let r := OverlayPanel.updateTextureSize width height p
      let p2 := OverlayPanel.setDimensions width height r.1
      let acq := OverlayPanel.getPixelBuffer p2 texBuffer
      let evs := r.2.map RenderEvent.tex ++ [RenderEvent.widgetResize width height] ++
        acq.2.map RenderEvent.buf
      if acq.1.valid = false then
        ({ s with overlay_panel := some p2 },
          evs ++ (ScopedPixelBuffer.destruct acq.1).map RenderEvent.buf)
      else
        let img := ScopedPixelBuffer.getQImage acq.1 width height
        match img.1 with
        | none =>
          ({ s with overlay_panel := some p2 },
            evs ++ img.2.map RenderEvent.buf ++
              (ScopedPixelBuffer.destruct acq.1).map RenderEvent.buf)
        | some _ =>
          ({ s with overlay_panel := some p2 },
            evs ++ img.2.map RenderEvent.buf ++ [RenderEvent.imageFill, RenderEvent.paint] ++
              (ScopedPixelBuffer.destruct acq.1).map RenderEvent.buf)

end OverlayManager

/-- A freshly, validly constructed overlay panel (concrete instance). -/
def samplePanel : OverlayPanelState :=
  OverlayPanel.construct "AttitudeDisplayHUD0" true

/-- A validly constructed overlay panel holding a 100×50 texture. -/
def samplePanelTex : OverlayPanelState :=
  { samplePanel with texture_ := some (100, 50) }

section GeometryLemmas

lemma cppClamp_nonneg (v hi : Int) (h : 0 ≤ hi) : 0 ≤ cppClamp v 0 hi := by
  unfold cppClamp; split <;> [omega; skip]; split <;> omega

lemma cppClamp_le (v hi : Int) (h : 0 ≤ hi) : cppClamp v 0 hi ≤ hi := by
  unfold cppClamp; split <;> [omega; skip]; split <;> omega

end GeometryLemmas

/-- C2: For every geometry and viewport size, the clamped offsets lie
within `[0, max 0 (V - S)]` on each axis; in particular a requested x-offset
of 10000 on an 800-wide viewport with a 200-wide overlay clamps to 600. -/
theorem calculateClampedOffsets_bounded (g : Geometry) (panel_size : QSize) :
    (0 ≤ (calculateClampedOffsets g panel_size).1 ∧
      (calculateClampedOffsets g panel_size).1 ≤ max 0 (panel_size.width - g.width)) ∧
    (0 ≤ (calculateClampedOffsets g panel_size).2 ∧
      (calculateClampedOffsets g panel_size).2 ≤ max 0 (panel_size.height - g.height)) ∧
    calculateClampedOffsets
      { width := 200, height := 100, offset_x := 10000, offset_y := 0,
        anchor := Anchor.TopLeft } { width := 800, height := 600 } = (600, 0) := by
  refine ⟨⟨?_, ?_⟩, ⟨?_, ?_⟩, by decide⟩
  · exact cppClamp_nonneg _ _ (le_max_left _ _)
  · exact cppClamp_le _ _ (le_max_left _ _)
  · exact cppClamp_nonneg _ _ (le_max_left _ _)
  · exact cppClamp_le _ _ (le_max_left _ _)

/-- C3: Anchor resolution is applied after clamping, with the four
corner formulas of the spec; in particular viewport 1920×1080, overlay
200×200, anchor BottomRight, offset (10,10) yields position (1710, 870). -/
theorem calculateAbsolutePosition_anchor (g : Geometry) (panel_size : QSize) :
    calculateAbsolutePosition g panel_size =
      (let c := calculateClampedOffsets g panel_size
       match g.anchor with
       | Anchor.TopLeft => (c.1, c.2)
       | Anchor.TopRight => (panel_size.width - g.width - c.1, c.2)
       | Anchor.BottomLeft => (c.1, panel_size.height - g.height - c.2)
       | Anchor.BottomRight =>
           (panel_size.width - g.width - c.1, panel_size.height - g.height - c.2)) ∧
    calculateAbsolutePosition
      { width := 200, height := 200, offset_x := 10, offset_y := 10,
        anchor := Anchor.BottomRight } { width := 1920, height := 1080 } = (1710, 870) := by
  refine ⟨?_, by decide⟩
  obtain ⟨w, h, ox, oy, a⟩ := g
  cases a <;> rfl

lemma absolutePosition_inside_aux (w h ox oy : Int) (a : Anchor) (panel_size : QSize)
    (hw : w ≤ panel_size.width) (hh : h ≤ panel_size.height) :
    0 ≤ (calculateAbsolutePosition ⟨w, h, ox, oy, a⟩ panel_size).1 ∧
    (calculateAbsolutePosition ⟨w, h, ox, oy, a⟩ panel_size).1 + w ≤ panel_size.width ∧
    0 ≤ (calculateAbsolutePosition ⟨w, h, ox, oy, a⟩ panel_size).2 ∧
    (calculateAbsolutePosition ⟨w, h, ox, oy, a⟩ panel_size).2 + h ≤ panel_size.height := by
  have hmx : max 0 (panel_size.width - w) = panel_size.width - w :=
    max_eq_right (by omega)
  have hmy : max 0 (panel_size.height - h) = panel_size.height - h :=
    max_eq_right (by omega)
  have hx0 : 0 ≤ cppClamp ox 0 (max 0 (panel_size.width - w)) :=
    cppClamp_nonneg _ _ (le_max_left _ _)
  have hx1 : cppClamp ox 0 (max 0 (panel_size.width - w)) ≤ panel_size.width - w :=
    le_trans (cppClamp_le _ _ (le_max_left _ _)) (le_of_eq hmx)
  have hy0 : 0 ≤ cppClamp oy 0 (max 0 (panel_size.height - h)) :=
    cppClamp_nonneg _ _ (le_max_left _ _)
  have hy1 : cppClamp oy 0 (max 0 (panel_size.height - h)) ≤ panel_size.height - h :=
    le_trans (cppClamp_le _ _ (le_max_left _ _)) (le_of_eq hmy)
  cases a <;>
    simp only [calculateAbsolutePosition, calculateClampedOffsets] <;>
    refine ⟨by omega, by omega, by omega, by omega⟩

/-- C4: Whenever the viewport is at least as large as the overlay on
both axes, the absolute position keeps the overlay entirely inside the
viewport: `0 ≤ p` and `p + S ≤ V` on both axes, for every anchor and every
requested offsets. -/
theorem calculateAbsolutePosition_inside (g : Geometry) (panel_size : QSize)
    (hw : g.width ≤ panel_size.width) (hh : g.height ≤ panel_size.height) :
    0 ≤ (calculateAbsolutePosition g panel_size).1 ∧
    (calculateAbsolutePosition g panel_size).1 + g.width ≤ panel_size.width ∧
    0 ≤ (calculateAbsolutePosition g panel_size).2 ∧
    (calculateAbsolutePosition g panel_size).2 + g.height ≤ panel_size.height :=
  absolutePosition_inside_aux g.width g.height g.offset_x g.offset_y g.anchor
    panel_size hw hh

/-- Closed instance of `calculateAbsolutePosition_inside` at a concrete
geometry and viewport. -/
theorem calculateAbsolutePosition_inside_witness :
    0 ≤ (calculateAbsolutePosition
      { width := 200, height := 200, offset_x := 10, offset_y := 10,
        anchor := Anchor.BottomRight } { width := 1920, height := 1080 }).1 ∧
    (calculateAbsolutePosition
      { width := 200, height := 200, offset_x := 10, offset_y := 10,
        anchor := Anchor.BottomRight } { width := 1920, height := 1080 }).1 + 200 ≤ 1920 ∧
    0 ≤ (calculateAbsolutePosition
      { width := 200, height := 200, offset_x := 10, offset_y := 10,
        anchor := Anchor.BottomRight } { width := 1920, height := 1080 }).2 ∧
    (calculateAbsolutePosition
      { width := 200, height := 200, offset_x := 10, offset_y := 10,
        anchor := Anchor.BottomRight } { width := 1920, height := 1080 }).2 + 200 ≤ 1080 :=
  calculateAbsolutePosition_inside _ _ (by decide) (by decide)

section MoveChainLemmas

lemma moveChain_fst (n : Nat) : ∀ s : ScopedPixelBuffer,
    (moveChain s n).1 = ⟨s.buffer⟩ := by
  induction n with
  | zero => intro s; rfl
  | succ n ih =>
    intro s
    simpa [moveChain, ScopedPixelBuffer.moveConstruct] using ih ⟨s.buffer⟩

lemma moveChain_dead_destruct (n : Nat) : ∀ s : ScopedPixelBuffer,
    ((moveChain s n).2.map ScopedPixelBuffer.destruct).flatten = [] := by
  induction n with
  | zero => intro s; rfl
  | succ n ih =>
    intro s
    simpa [moveChain, ScopedPixelBuffer.moveConstruct, ScopedPixelBuffer.destruct]
      using ih ⟨s.buffer⟩

end MoveChainLemmas

/-- C1: Constructing over a non-null buffer performs exactly one lock;
after any chain of `n` move constructions, every moved-from husk's
destructor performs no unlock, the final holder's destructor performs
exactly one, so the total number of unlocks over all destructions equals
the single lock; and move assignment releases exactly what destroying the
old target would have (the obligation moves to the new target, the source
is left empty). -/
theorem scopedPixelBuffer_one_unlock_per_lock (h : PixelBufferHandle) (n : Nat)
    (t : ScopedPixelBuffer) :
    (ScopedPixelBuffer.construct (some h)).2 = [BufEvent.lock] ∧
    ScopedPixelBuffer.destruct
      (moveChain (ScopedPixelBuffer.construct (some h)).1 n).1 = [BufEvent.unlock] ∧
    ((moveChain (ScopedPixelBuffer.construct (some h)).1 n).2.map
      ScopedPixelBuffer.destruct).flatten = [] ∧
    (ScopedPixelBuffer.destruct (moveChain (ScopedPixelBuffer.construct (some h)).1 n).1 ++
      ((moveChain (ScopedPixelBuffer.construct (some h)).1 n).2.map
        ScopedPixelBuffer.destruct).flatten).count BufEvent.unlock =
      ((ScopedPixelBuffer.construct (some h)).2).count BufEvent.lock ∧
    ScopedPixelBuffer.moveAssign t (ScopedPixelBuffer.construct (some h)).1 =
      ((⟨some h⟩, ⟨none⟩), ScopedPixelBuffer.destruct t) := by
  have hfst : (moveChain (ScopedPixelBuffer.construct (some h)).1 n).1 =
      ⟨some h⟩ := moveChain_fst n _
  have hdead := moveChain_dead_destruct n (ScopedPixelBuffer.construct (some h)).1
  refine ⟨rfl, ?_, hdead, ?_, ?_⟩
  · rw [hfst]; rfl
  · rw [hfst, hdead]; rfl
  · rfl

/-- C8: A `ScopedPixelBuffer` constructed from an empty handle is
invalid, performs no lock, and `getQImage` yields a null image with no
memory access for any requested dimensions. -/
theorem scopedPixelBuffer_invalid_noop :
    (ScopedPixelBuffer.construct none).1.valid = false ∧
    (ScopedPixelBuffer.construct none).2 = [] ∧
    ∀ width height : Nat,
      ScopedPixelBuffer.getQImage (ScopedPixelBuffer.construct none).1 width height =
        (none, []) :=
  ⟨rfl, rfl, fun _ _ => rfl⟩

section PanelLemmas

lemma floorDim_eq_max (w : Nat) : (if w = 0 then 1 else w) = max w 1 := by
  rcases w with _ | n
  · decide
  · simp only [Nat.succ_ne_zero, if_false]
    exact (Nat.max_eq_left (by omega)).symm

lemma updateTextureSize_fresh (s : OverlayPanelState) (w h : Nat)
    (hp : s.panel_ = true) (ht : s.texture_ = none) :
    OverlayPanel.updateTextureSize w h s =
      ({ s with texture_ := some (if w = 0 then 1 else w, if h = 0 then 1 else h) },
        [TexEvent.createTexture (if w = 0 then 1 else w) (if h = 0 then 1 else h)]) := by
  simp [OverlayPanel.updateTextureSize, hp, ht]

lemma updateTextureSize_same (s : OverlayPanelState) (w h tw th : Nat)
    (hp : s.panel_ = true) (ht : s.texture_ = some (tw, th))
    (hc : tw = (if w = 0 then 1 else w) ∧ th = (if h = 0 then 1 else h)) :
    OverlayPanel.updateTextureSize w h s = (s, []) := by
  simp [OverlayPanel.updateTextureSize, hp, ht, hc]

lemma updateTextureSize_differ (s : OverlayPanelState) (w h tw th : Nat)
    (hp : s.panel_ = true) (ht : s.texture_ = some (tw, th))
    (hc : ¬(tw = (if w = 0 then 1 else w) ∧ th = (if h = 0 then 1 else h))) :
    OverlayPanel.updateTextureSize w h s =
      ({ s with texture_ := some (if w = 0 then 1 else w, if h = 0 then 1 else h) },
        [TexEvent.destroyTexture,
         TexEvent.createTexture (if w = 0 then 1 else w) (if h = 0 then 1 else h)]) := by
  simp [OverlayPanel.updateTextureSize, hp, ht, hc]

lemma updateTextureSize_nopanel (w h : Nat) (s : OverlayPanelState)
    (hp : s.panel_ = false) :
    OverlayPanel.updateTextureSize w h s = (s, []) := by
  simp [OverlayPanel.updateTextureSize, hp]

lemma updateTextureSize_panel (w h : Nat) (s : OverlayPanelState) :
    (OverlayPanel.updateTextureSize w h s).1.panel_ = s.panel_ := by
  cases hpb : s.panel_
  · rw [updateTextureSize_nopanel w h s hpb]; exact hpb
  · rcases htex : s.texture_ with _ | ⟨tw, th⟩
    · rw [updateTextureSize_fresh s w h hpb htex]; exact hpb
    · by_cases hc : tw = (if w = 0 then 1 else w) ∧ th = (if h = 0 then 1 else h)
      · rw [updateTextureSize_same s w h tw th hpb htex hc]; exact hpb
      · rw [updateTextureSize_differ s w h tw th hpb htex hc]; exact hpb

lemma updateTextureSize_isSome (w h : Nat) (s : OverlayPanelState)
    (hs : s.texture_.isSome = true) :
    (OverlayPanel.updateTextureSize w h s).1.texture_.isSome = true := by
  cases hpb : s.panel_
  · rw [updateTextureSize_nopanel w h s hpb]; exact hs
  · rcases htex : s.texture_ with _ | ⟨tw, th⟩
    · rw [htex] at hs; exact absurd hs (by simp)
    · by_cases hc : tw = (if w = 0 then 1 else w) ∧ th = (if h = 0 then 1 else h)
      · rw [updateTextureSize_same s w h tw th hpb htex hc]; exact hs
      · rw [updateTextureSize_differ s w h tw th hpb htex hc]; rfl

lemma applyResizes_isSome (reqs : List (Nat × Nat)) : ∀ s : OverlayPanelState,
    s.texture_.isSome = true → (applyResizes s reqs).1.texture_.isSome = true := by
  induction reqs with
  | nil => intro s hs; exact hs
  | cons r rest ih =>
    intro s hs
    exact ih _ (updateTextureSize_isSome r.1 r.2 s hs)

end PanelLemmas

/-- C5: On a validly constructed panel with no texture yet, two calls
of `updateTextureSize` with the same dimensions create the texture exactly
once and the second call is a no-op; and a call whose (floored) dimensions
differ from the current texture's destroys the old texture and creates a
new one exactly once. -/
theorem updateTextureSize_idempotent (s s2 : OverlayPanelState) (w h w2 h2 tw th : Nat)
    (hp : s.panel_ = true) (ht : s.texture_ = none)
    (hp2 : s2.panel_ = true) (ht2 : s2.texture_ = some (tw, th))
    (hdiff : ¬(tw = (if w2 = 0 then 1 else w2) ∧ th = (if h2 = 0 then 1 else h2))) :
    (texCreates ((OverlayPanel.updateTextureSize w h s).2 ++
        (OverlayPanel.updateTextureSize w h (OverlayPanel.updateTextureSize w h s).1).2) = 1 ∧
      OverlayPanel.updateTextureSize w h (OverlayPanel.updateTextureSize w h s).1 =
        ((OverlayPanel.updateTextureSize w h s).1, [])) ∧
    ((OverlayPanel.updateTextureSize w2 h2 s2).2 =
        [TexEvent.destroyTexture,
         TexEvent.createTexture (if w2 = 0 then 1 else w2) (if h2 = 0 then 1 else h2)] ∧
      texCreates (OverlayPanel.updateTextureSize w2 h2 s2).2 = 1 ∧
      texDestroys (OverlayPanel.updateTextureSize w2 h2 s2).2 = 1) := by
  have h1 := updateTextureSize_fresh s w h hp ht
  have hsecond : OverlayPanel.updateTextureSize w h (OverlayPanel.updateTextureSize w h s).1 =
      ((OverlayPanel.updateTextureSize w h s).1, []) := by
    rw [h1]
    exact updateTextureSize_same _ w h _ _ hp rfl ⟨rfl, rfl⟩
  have hB := updateTextureSize_differ s2 w2 h2 tw th hp2 ht2 hdiff
  refine ⟨⟨?_, hsecond⟩, ?_, ?_, ?_⟩
  · rw [hsecond, h1]
    simp [texCreates]
  · rw [hB]
  · rw [hB]; simp [texCreates]
  · rw [hB]; simp [texDestroys]

/-- Closed instance of `updateTextureSize_idempotent`: a fresh panel
resized twice to 100×50, and a panel holding a 100×50 texture resized to
200×50. -/
theorem updateTextureSize_idempotent_witness :
    (texCreates ((OverlayPanel.updateTextureSize 100 50 samplePanel).2 ++
        (OverlayPanel.updateTextureSize 100 50
          (OverlayPanel.updateTextureSize 100 50 samplePanel).1).2) = 1 ∧
      OverlayPanel.updateTextureSize 100 50
          (OverlayPanel.updateTextureSize 100 50 samplePanel).1 =
        ((OverlayPanel.updateTextureSize 100 50 samplePanel).1, [])) ∧
    ((OverlayPanel.updateTextureSize 200 50 samplePanelTex).2 =
        [TexEvent.destroyTexture, TexEvent.createTexture 200 50] ∧
      texCreates (OverlayPanel.updateTextureSize 200 50 samplePanelTex).2 = 1 ∧
      texDestroys (OverlayPanel.updateTextureSize 200 50 samplePanelTex).2 = 1) :=
  updateTextureSize_idempotent samplePanel samplePanelTex 100 50 200 50 100 50
    rfl rfl rfl rfl (by decide)

/-- C6: On a validly constructed panel, `updateTextureSize w h` leaves
a texture of exactly `(max w 1, max h 1)`, and every texture-creation event
it emits has those dimensions, both at least 1: a zero-sized texture is
never created. -/
theorem updateTextureSize_min_one (s : OverlayPanelState) (w h : Nat)
    (hp : s.panel_ = true) :
    (OverlayPanel.updateTextureSize w h s).1.texture_ = some (max w 1, max h 1) ∧
    ((OverlayPanel.updateTextureSize w h s).2.all fun e =>
      match e with
      | TexEvent.createTexture cw ch =>
          decide (cw = max w 1 ∧ ch = max h 1 ∧ 1 ≤ cw ∧ 1 ≤ ch)
      | TexEvent.destroyTexture => true) = true := by
  have hw := floorDim_eq_max w
  have hh := floorDim_eq_max h
  rcases htex : s.texture_ with _ | ⟨tw, th⟩
  · rw [updateTextureSize_fresh s w h hp htex]
    refine ⟨by simp [hw, hh], ?_⟩
    simp [hw, hh, Nat.le_max_right]
  · by_cases hc : tw = (if w = 0 then 1 else w) ∧ th = (if h = 0 then 1 else h)
    · rw [updateTextureSize_same s w h tw th hp htex hc]
      refine ⟨?_, by simp⟩
      rw [htex, hc.1, hc.2, hw, hh]
    · rw [updateTextureSize_differ s w h tw th hp htex hc]
      refine ⟨by simp [hw, hh], ?_⟩
      simp [hw, hh, Nat.le_max_right]

/-- Closed instance of `updateTextureSize_min_one`: resizing a fresh panel
to 0×5 yields a 1×5 texture. -/
theorem updateTextureSize_min_one_witness :
    (OverlayPanel.updateTextureSize 0 5 samplePanel).1.texture_ = some (max 0 1, max 5 1) ∧
    ((OverlayPanel.updateTextureSize 0 5 samplePanel).2.all fun e =>
      match e with
      | TexEvent.createTexture cw ch =>
          decide (cw = max 0 1 ∧ ch = max 5 1 ∧ 1 ≤ cw ∧ 1 ≤ ch)
      | TexEvent.destroyTexture => true) = true :=
  updateTextureSize_min_one samplePanel 0 5 rfl

/-- C7 counterexample: On a validly constructed panel, a single
`updateTextureSize 0 0` call — a zero-size request — still creates a
texture (dimensions are floored to 1×1), so "texture handle non-null iff a
non-zero size has been requested" fails. -/
theorem texture_nonzero_iff_counterexample :
    (applyResizes samplePanel [(0, 0)]).1.texture_.isSome = true ∧
    nonZeroRequested [(0, 0)] = false := by
  exact ⟨rfl, rfl⟩

/-- C7 amended: On a validly constructed panel with no texture yet,
the texture handle is non-null iff `updateTextureSize` has been called at
least once — with any requested size, since dimensions are floored to a
minimum of 1. -/
theorem texture_iff_resized (s : OverlayPanelState) (reqs : List (Nat × Nat))
    (hp : s.panel_ = true) (ht : s.texture_ = none) :
    (applyResizes s reqs).1.texture_.isSome = !reqs.isEmpty := by
  cases reqs with
  | nil => simp [applyResizes, ht]
  | cons r rest =>
    have h1 := updateTextureSize_fresh s r.1 r.2 hp ht
    have hsome : (OverlayPanel.updateTextureSize r.1 r.2 s).1.texture_.isSome = true := by
      rw [h1]; rfl
    simp only [applyResizes, List.isEmpty_cons, Bool.not_false]
    exact applyResizes_isSome rest _ hsome

/-- Closed instance of `texture_iff_resized`: one resize call on a fresh
panel leaves a texture. -/
theorem texture_iff_resized_witness :
    (applyResizes samplePanel [(3, 4)]).1.texture_.isSome =
      !([((3 : Nat), (4 : Nat))].isEmpty) :=
  texture_iff_resized samplePanel [(3, 4)] rfl rfl

section RenderLemmas

lemma getPixelBuffer_none (s : OverlayPanelState) :
    OverlayPanel.getPixelBuffer s none = ScopedPixelBuffer.construct none := by
  rcases htex : s.texture_ with _ | ⟨a, b⟩ <;> simp [OverlayPanel.getPixelBuffer, htex]

end RenderLemmas

/-- C9: `render` is a no-op (state unchanged, no events — hence no
paint and no lock) when the panel is absent or the current texture width or
height is 0; and with no acquirable hardware buffer the render is skipped:
no paint occurs. -/
theorem render_noop (s1 : OverlayManagerState) (tb1 : Option PixelBufferHandle)
    (h1 : s1.overlay_panel = none)
    (s2 : OverlayManagerState) (p : OverlayPanelState) (tb2 : Option PixelBufferHandle)
    (h2 : s2.overlay_panel = some p)
    (h2wh : OverlayPanel.textureWidth p = 0 ∨ OverlayPanel.textureHeight p = 0)
    (s3 : OverlayManagerState) :
    OverlayManager.render tb1 s1 = (s1, []) ∧
    OverlayManager.render tb2 s2 = (s2, []) ∧
    RenderEvent.paint ∉ (OverlayManager.render none s3).2 := by
  refine ⟨?_, ?_, ?_⟩
  · simp [OverlayManager.render, h1]
  · simp only [OverlayManager.render, h2]
    rw [if_pos h2wh]
  · rcases hp3 : s3.overlay_panel with _ | p3
    · simp [OverlayManager.render, hp3]
    · by_cases hwh : OverlayPanel.textureWidth p3 = 0 ∨ OverlayPanel.textureHeight p3 = 0
      · simp [OverlayManager.render, hp3, hwh]
      · simp [OverlayManager.render, hp3, hwh, getPixelBuffer_none,
          ScopedPixelBuffer.construct, ScopedPixelBuffer.valid, ScopedPixelBuffer.destruct]

/-- Closed instance of `render_noop`: no panel, a panel with no texture
(width 0), and a panel whose texture has no acquirable buffer. -/
theorem render_noop_witness :
    OverlayManager.render none ⟨none, none⟩ = (⟨none, none⟩, []) ∧
    OverlayManager.render (some ⟨0, some 0⟩) ⟨some samplePanel, none⟩ =
      (⟨some samplePanel, none⟩, []) ∧
    RenderEvent.paint ∉ (OverlayManager.render none ⟨some samplePanelTex, none⟩).2 :=
  render_noop ⟨none, none⟩ none rfl ⟨some samplePanel, none⟩ samplePanel
    (some ⟨0, some 0⟩) rfl (Or.inl rfl) ⟨some samplePanelTex, none⟩

/-- C10: Every constructed `OverlayPanel` starts hidden — `isVisible`
is false immediately after construction, whether or not the overlay
manager was available — and `isVisible` is false whenever the overlay
handle is null. -/
theorem overlayPanel_starts_hidden (name : String) (mgrAvailable : Bool)
    (s : OverlayPanelState) (hs : s.overlay_ = false) :
    OverlayPanel.isVisible (OverlayPanel.construct name mgrAvailable) = false ∧
    OverlayPanel.isVisible s = false := by
  constructor
  · unfold OverlayPanel.construct OverlayPanel.isVisible
    split <;> rfl
  · simp [OverlayPanel.isVisible, hs]

/-- Closed instance of `overlayPanel_starts_hidden`. -/
theorem overlayPanel_starts_hidden_witness :
    OverlayPanel.isVisible (OverlayPanel.construct "AttitudeDisplayHUD1" true) = false ∧
    OverlayPanel.isVisible (OverlayPanel.construct "AttitudeDisplayHUD2" false) = false :=
  overlayPanel_starts_hidden "AttitudeDisplayHUD1" true
    (OverlayPanel.construct "AttitudeDisplayHUD2" false) rfl

end RvizAttitudePlugin
